import Mathlib

/-!
Shallow embedding of the bookshelf manager (`src/main.ts`): the `Book`
record and `BookBuilder`, the `Library` collection manager with its
observer list and localStorage persistence, the Add command, and the
three search strategies.  Stateful TypeScript methods become pure
functions threading an explicit `LibraryState`; `localStorage` becomes an
`Option StoredVal` field of that state, where `StoredVal` classifies the
stored string by the way `JSON.parse` treats it.
-/

namespace BookLibrary

/-- The `Book` class of `src/main.ts`: required `title`, `author`, `year`,
`id` set by the constructor, optional `genre` (absent, i.e. `undefined`,
unless assigned later). -/
structure Book where
  title : String
  author : String
  year : Int
  id : String
  genre : Option String := none
  deriving Repr, DecidableEq

/-- The `BookBuilder` class: holds the four required fields and the
optional genre. -/
structure BookBuilder where
  title : String
  author : String
  year : Int
  id : String
  genre : Option String := none
  deriving Repr, DecidableEq

/-- `BookBuilder.setGenre`: sets the genre, returns the builder. -/
def BookBuilder.setGenre (b : BookBuilder) (g : String) : BookBuilder :=
  { b with genre := some g }

/-- `BookBuilder.build`: constructs a `Book` from the four required fields
and then assigns `book.genre = this.genre`. -/
def BookBuilder.build (b : BookBuilder) : Book :=
  ⟨b.title, b.author, b.year, b.id, b.genre⟩

/-- Classification of a string stored under the `bookLibrary` key in
`localStorage`, by how `loadFromLocalStorage` treats it:
`emptyStr` is the empty string (falsy in the `if (storedBooks)` test, and
`JSON.parse("")` would throw); `jsonArr bs` is a JSON array of book-shaped
records (what `saveToLocalStorage` writes); `jsonNonArray` is valid JSON
that is not an array; `corrupt` is a nonempty string `JSON.parse`
rejects. -/
inductive StoredVal where
  | emptyStr : StoredVal
  | jsonArr : List Book → StoredVal
  | jsonNonArray : StoredVal
  | corrupt : StoredVal
  deriving Repr, DecidableEq

/-- The record `new Book(bookData.title, bookData.author, bookData.year,
bookData.id)` built by `loadFromLocalStorage` for one parsed array entry:
only the four constructor fields are taken, so `genre` is left absent. -/
def bookOfRecord (r : Book) : Book :=
  ⟨r.title, r.author, r.year, r.id, none⟩

/-- Result of running `loadFromLocalStorage`: the books loaded into the
collection, the stored value afterwards, and whether `console.error` was
called. -/
structure LoadResult where
  books : List Book
  store : Option StoredVal
  errorLogged : Bool
  deriving Repr, DecidableEq

/-- `Library.loadFromLocalStorage`: reads the stored value; skips
everything when it is absent or falsy (the empty string); on a JSON array
maps each record through the `Book` constructor; on other valid JSON logs
an error and keeps the collection empty; on a parse failure logs an
error, removes the stored key and keeps the collection empty. -/
def loadFromLocalStorage (store : Option StoredVal) : LoadResult :=
  match store with
  | none => ⟨[], none, false⟩
  | some StoredVal.emptyStr => ⟨[], some StoredVal.emptyStr, false⟩
  | some (StoredVal.jsonArr bs) =>
      ⟨bs.map bookOfRecord, some (StoredVal.jsonArr bs), false⟩
  | some StoredVal.jsonNonArray => ⟨[], some StoredVal.jsonNonArray, true⟩
  | some StoredVal.corrupt => ⟨[], none, true⟩

/-- The state of one `Library` instance together with the persisted
store: the book collection, the attached observers (by identity, in
attachment order), and the stored value under the `bookLibrary` key. -/
structure LibraryState where
  books : List Book
  observers : List Nat
  store : Option StoredVal
  deriving Repr, DecidableEq

/-- The `Library` constructor: starts with empty collection and observer
list, then runs `loadFromLocalStorage`. -/
def mkLibrary (store : Option StoredVal) : LibraryState :=
  let r := loadFromLocalStorage store
  ⟨r.books, [], r.store⟩

/-- `Library.saveToLocalStorage`: `JSON.stringify` of the whole
collection written under the key (all fields of each book, genre
included, are serialised). -/
def saveToLocalStorage (books : List Book) : Option StoredVal :=
  some (StoredVal.jsonArr books)

/-- `Library.attach`: pushes the observer; no dedup check. -/
def attach (st : LibraryState) (o : Nat) : LibraryState :=
  { st with observers := st.observers ++ [o] }

/-- `Library.detach`: filters the observer list, keeping entries that are
not identical to the argument. -/
def detach (st : LibraryState) (o : Nat) : LibraryState :=
  { st with observers := st.observers.filter (fun obs => obs != o) }

/-- `Library.notify`: calls `update` on each observer in list order; the
model records the sequence of observers notified. -/
def notify (st : LibraryState) : List Nat :=
  st.observers

/-- A mutation's outcome: the new state and the sequence of observers
whose `update` was invoked, in invocation order. -/
structure MutResult where
  state : LibraryState
  notified : List Nat
  deriving Repr, DecidableEq

/-- `Library.addBook`: pushes the book onto the collection, saves the
whole collection, notifies. -/
def addBook (st : LibraryState) (b : Book) : MutResult :=
  let books := st.books ++ [b]
  let st := { st with books := books, store := saveToLocalStorage books }
  ⟨st, notify st⟩

/-- `Library.removeBook`: keeps exactly the entries whose `id` differs
from the argument's `id`, saves, notifies. -/
def removeBook (st : LibraryState) (b : Book) : MutResult :=
  let books := st.books.filter (fun x => x.id != b.id)
  let st := { st with books := books, store := saveToLocalStorage books }
  ⟨st, notify st⟩

/-- Boolean prefix test on character lists, the recursion behind
`String.prototype.includes`. -/
def listIsPreOf : List Char → List Char → Bool
  | [], _ => true
  | _ :: _, [] => false
  | a :: as, b :: bs => a == b && listIsPreOf as bs

/-- Boolean substring test on character lists: the needle occurs as a
contiguous run somewhere in the haystack. -/
def listIncl (needle : List Char) : List Char → Bool
  | [] => listIsPreOf needle []
  | c :: t => listIsPreOf needle (c :: t) || listIncl needle t

/-- `hay.includes(needle)` on strings. -/
def jsIncludes (hay needle : String) : Bool :=
  listIncl needle.data hay.data

/-- `s.toLowerCase()`: each character mapped to its lower-case form. -/
def jsToLower (s : String) : String :=
  ⟨s.data.map Char.toLower⟩

/-- Whitespace characters skipped by `parseInt` before reading digits. -/
def jsWhitespace (c : Char) : Bool :=
  c == ' ' || c == '\t' || c == '\n' || c == '\r'
    || c == Char.ofNat 11 || c == Char.ofNat 12

/-- Value of one digit in the given radix (10 or 16), `none` when the
character is not a digit of that radix. -/
def digitVal (radix : Nat) (c : Char) : Option Nat :=
  if '0' ≤ c ∧ c ≤ '9' then some (c.toNat - '0'.toNat)
  else if radix == 16 ∧ 'a' ≤ c ∧ c ≤ 'f' then some (c.toNat - 'a'.toNat + 10)
  else if radix == 16 ∧ 'A' ≤ c ∧ c ≤ 'F' then some (c.toNat - 'A'.toNat + 10)
  else none

/-- JavaScript `parseInt(query)` with no radix argument: skip leading
whitespace, read an optional sign, switch to radix 16 after a `0x`/`0X`
prefix, take the longest prefix of radix digits; `none` models `NaN`
(no digits at all). -/
def parseIntJS (s : String) : Option Int :=
  let cs := s.data.dropWhile jsWhitespace
  let signAndRest : Int × List Char :=
    match cs with
    | '-' :: rest => (-1, rest)
    | '+' :: rest => (1, rest)
    | _ => (1, cs)
  let radixAndRest : Nat × List Char :=
    match signAndRest.2 with
    | '0' :: 'x' :: rest => (16, rest)
    | '0' :: 'X' :: rest => (16, rest)
    | _ => (10, signAndRest.2)
  let ds := radixAndRest.2.takeWhile (fun c => (digitVal radixAndRest.1 c).isSome)
  match ds with
  | [] => none
  | _ =>
    some (signAndRest.1 *
      Int.ofNat (ds.foldl
        (fun acc c => acc * radixAndRest.1 + (digitVal radixAndRest.1 c).getD 0) 0))

/-- `TitleSearchStrategy.search`: keeps the books whose lowercased title
includes the lowercased query. -/
def TitleSearchStrategy.search (books : List Book) (query : String) : List Book :=
  books.filter (fun book => jsIncludes (jsToLower book.title) (jsToLower query))

/-- `AuthorSearchStrategy.search`: keeps the books whose lowercased
author includes the lowercased query. -/
def AuthorSearchStrategy.search (books : List Book) (query : String) : List Book :=
  books.filter (fun book => jsIncludes (jsToLower book.author) (jsToLower query))

/-- `YearSearchStrategy.search`: `parseInt` the query; on `NaN` return
the empty list, otherwise keep the books whose year equals the parsed
number. -/
def YearSearchStrategy.search (books : List Book) (query : String) : List Book :=
  match parseIntJS query with
  | none => []
  | some year => books.filter (fun book => book.year == year)

/-- `AddBookCommand.execute`: `library.addBook(book)`. -/
def AddBookCommand.exec (lib : LibraryState) (book : Book) : MutResult :=
  addBook lib book

/-- `AddBookCommand.undo`: `library.removeBook(book)`. -/
def AddBookCommand.undo (lib : LibraryState) (book : Book) : MutResult :=
  removeBook lib book

/-! ### Sample data used by concrete witnesses and counterexamples -/

/-- A sample book without genre. -/
def bkA : Book := ⟨"The Hobbit", "J.R.R. Tolkien", 1937, "id-a", none⟩

/-- A second sample book, distinct id. -/
def bkB : Book := ⟨"Dune", "Frank Herbert", 1965, "id-b", none⟩

/-- A sample book carrying the same id as `bkA` (duplicate ids are legal). -/
def bkA2 : Book := ⟨"The Silmarillion", "J.R.R. Tolkien", 1977, "id-a", none⟩

/-- A sample book with a genre set (as `BookBuilder.setGenre` produces). -/
def bkG : Book :=
  BookBuilder.build (BookBuilder.setGenre ⟨"The Hobbit", "J.R.R. Tolkien", 1937, "id-g", none⟩ "Fantasy")

/-- A sample book published in 1954. -/
def bk1954 : Book := ⟨"The Fellowship of the Ring", "J.R.R. Tolkien", 1954, "id-f", none⟩

/-- A sample book published in 1955. -/
def bk1955 : Book := ⟨"The Return of the King", "J.R.R. Tolkien", 1955, "id-r", none⟩

/-! ### Helper lemmas -/

/-- `listIsPreOf` decides the prefix relation on character lists. -/
theorem listIsPreOf_iff (n h : List Char) : listIsPreOf n h = true ↔ n <+: h := by
  induction n generalizing h with
  | nil => simp [listIsPreOf]
  | cons a as ih =>
    cases h with
    | nil => simp [listIsPreOf]
    | cons b bs => simp [listIsPreOf, List.cons_prefix_cons, ih]

/-- `listIncl` decides the infix (contiguous-substring) relation. -/
theorem listIncl_iff (n h : List Char) : listIncl n h = true ↔ n <:+: h := by
  induction h with
  | nil => simp [listIncl, listIsPreOf_iff]
  | cons c t ih => simp [listIncl, listIsPreOf_iff, ih, List.infix_cons_iff]

/-! ### Claims -/

/-- Claim C1, counterexample: adding a book that carries a genre and
reloading a fresh `Library` over the same persisted store does not
reproduce the saved collection — the reloaded book has lost its genre. -/
theorem save_reload_drops_genre :
    (mkLibrary ((addBook (mkLibrary none) bkG).state.store)).books
      ≠ (addBook (mkLibrary none) bkG).state.books := by
  decide

/-- Claim C1, amended: reloading a fresh `Library` over the store
persisted by `addBook` yields the same books in the same order with
title, author, year and id preserved, but with every genre reset to
absent (`loadFromLocalStorage` rebuilds each book from the four
constructor fields only). -/
theorem save_reload_preserves_all_but_genre (st : LibraryState) (b : Book) :
    (mkLibrary ((addBook st b).state.store)).books
      = ((addBook st b).state.books).map (fun x => { x with genre := none }) :=
  rfl

/-- Claim C2, counterexample: with a book of the same id already in the
collection, `AddBookCommand.execute` followed by `undo` does not restore
the pre-add collection — the undo removes the pre-existing duplicate as
well. -/
theorem add_undo_cex :
    (AddBookCommand.undo (AddBookCommand.exec ⟨[bkA], [], none⟩ bkA2).state bkA2).state.books
      ≠ [bkA] := by
  decide

/-- Claim C2, amended: when no book in the collection already has the
added book's id, executing `AddBookCommand` and then its `undo` restores
the collection to exactly the pre-add state. -/
theorem add_then_undo_restores (st : LibraryState) (b : Book)
    (h : ∀ x ∈ st.books, x.id ≠ b.id) :
    (AddBookCommand.undo (AddBookCommand.exec st b).state b).state.books = st.books := by
  show (st.books ++ [b]).filter (fun x => x.id != b.id) = st.books
  rw [List.filter_append]
  have h1 : st.books.filter (fun x => x.id != b.id) = st.books :=
    List.filter_eq_self.mpr (fun a ha => by simpa using h a ha)
  have h2 : [b].filter (fun x => x.id != b.id) = [] := by simp
  rw [h1, h2, List.append_nil]

/-- Claim C2, witness of the amended theorem at a concrete input. -/
theorem add_then_undo_restores_witness :
    (AddBookCommand.undo (AddBookCommand.exec ⟨[bkB], [], none⟩ bkA).state bkA).state.books
      = [bkB] :=
  add_then_undo_restores ⟨[bkB], [], none⟩ bkA (by decide)

/-- Claim C3, counterexample: for a book `B` that is present but not in
the last position, `removeBook(B)` followed by `addBook(B)` does not
restore the prior state — `B` is re-appended at the end, changing the
order. -/
theorem remove_add_cex :
    (addBook (removeBook ⟨[bkA, bkB], [], none⟩ bkA).state bkA).state.books
      ≠ [bkA, bkB] := by
  decide

/-- Claim C3, amended: when `B` is the last element of the collection and
no other entry shares its id, `removeBook(B)` followed immediately by
`addBook(B)` restores the prior collection state. -/
theorem remove_then_add_restores (st : LibraryState) (B : Book) (ys : List Book)
    (hb : st.books = ys ++ [B]) (h : ∀ x ∈ ys, x.id ≠ B.id) :
    (addBook (removeBook st B).state B).state.books = st.books := by
  show st.books.filter (fun x => x.id != B.id) ++ [B] = st.books
  rw [hb, List.filter_append]
  have h1 : ys.filter (fun x => x.id != B.id) = ys :=
    List.filter_eq_self.mpr (fun a ha => by simpa using h a ha)
  have h2 : [B].filter (fun x => x.id != B.id) = [] := by simp
  rw [h1, h2, List.append_nil]

/-- Claim C3, witness of the amended theorem at a concrete input. -/
theorem remove_then_add_restores_witness :
    (addBook (removeBook ⟨[bkB, bkA], [], none⟩ bkA).state bkA).state.books = [bkB, bkA] :=
  remove_then_add_restores ⟨[bkB, bkA], [], none⟩ bkA [bkB] (by decide) (by decide)

/-- Claim C4, counterexample: the empty string is a present stored value
that `JSON.parse` would reject, yet construction logs no error and leaves
the stored key in place (the `if (storedBooks)` truthiness test skips the
whole load), contradicting the claimed present-but-unparsable outcome
(error logged, key deleted). -/
theorem load_emptyStr_cex :
    (loadFromLocalStorage (some StoredVal.emptyStr)).errorLogged = false
    ∧ (loadFromLocalStorage (some StoredVal.emptyStr)).store ≠ none := by
  decide

/-- Claim C4, amended: construction-time load has the claimed three-way
outcome — absent value: empty collection, no error; present array: the
records become the collection, store untouched; present non-array JSON:
error logged, empty collection, store untouched; present nonempty
unparsable value: error logged, key deleted, empty collection — except
that a present empty-string value is treated like absence (no error, key
untouched, empty collection). -/
theorem load_three_way_outcome :
    loadFromLocalStorage none = ⟨[], none, false⟩
    ∧ (∀ bs, loadFromLocalStorage (some (StoredVal.jsonArr bs))
        = ⟨bs.map bookOfRecord, some (StoredVal.jsonArr bs), false⟩)
    ∧ loadFromLocalStorage (some StoredVal.jsonNonArray)
        = ⟨[], some StoredVal.jsonNonArray, true⟩
    ∧ loadFromLocalStorage (some StoredVal.corrupt) = ⟨[], none, true⟩
    ∧ loadFromLocalStorage (some StoredVal.emptyStr)
        = ⟨[], some StoredVal.emptyStr, false⟩ :=
  ⟨rfl, fun _ => rfl, rfl, rfl, rfl⟩

/-- Claim C5: `removeBook(b)` removes exactly the entries whose id equals
`b.id` — every surviving entry has a different id, every entry with a
different id survives with its multiplicity intact, and the survivors
keep their relative order (the result is a sublist of the original). -/
theorem removeBook_removes_exactly_id_matches (st : LibraryState) (b : Book) :
    ((removeBook st b).state.books).Sublist st.books
    ∧ (∀ x ∈ (removeBook st b).state.books, x.id ≠ b.id)
    ∧ (∀ x : Book, ((removeBook st b).state.books).count x
        = if x.id = b.id then 0 else st.books.count x) := by
  refine ⟨?_, ?_, ?_⟩
  · show (st.books.filter (fun x => x.id != b.id)).Sublist st.books
    exact List.filter_sublist st.books
  · intro x hx
    have hmem : x ∈ st.books.filter (fun x => x.id != b.id) := hx
    simpa using (List.mem_filter.mp hmem).2
  · intro x
    show (st.books.filter (fun y => y.id != b.id)).count x = _
    by_cases hxb : x.id = b.id
    · rw [if_pos hxb]
      refine List.count_eq_zero.mpr ?_
      intro hmem
      have := (List.mem_filter.mp hmem).2
      simp [hxb] at this
    · rw [if_neg hxb]
      exact List.count_filter (by simpa using hxb)

/-- Claim C5, witness at a concrete input: removing by an id equal to
`bkA.id` keeps `bkB` with multiplicity one. -/
theorem removeBook_removes_exactly_id_matches_witness :
    ((removeBook ⟨[bkA, bkB], [], none⟩ bkA2).state.books).count bkB = 1 := by
  have h := (removeBook_removes_exactly_id_matches ⟨[bkA, bkB], [], none⟩ bkA2).2.2 bkB
  rw [h]
  decide

/-- Claim C6: year search returns the empty list when the query does not
parse as an integer, and otherwise returns exactly the books whose year
equals the parsed integer. -/
theorem yearSearch_correct (books : List Book) (q : String) :
    (parseIntJS q = none → YearSearchStrategy.search books q = [])
    ∧ (∀ n : Int, parseIntJS q = some n →
        ∀ b : Book, b ∈ YearSearchStrategy.search books q ↔ b ∈ books ∧ b.year = n) := by
  constructor
  · intro h
    simp [YearSearchStrategy.search, h]
  · intro n h b
    simp [YearSearchStrategy.search, h]

/-- Claim C6, witness: query `"abc"` yields the empty result, and query
`"1954"` matches the 1954 book. -/
theorem yearSearch_correct_witness :
    YearSearchStrategy.search [bk1954, bk1955] "abc" = []
    ∧ bk1954 ∈ YearSearchStrategy.search [bk1954, bk1955] "1954" :=
  ⟨(yearSearch_correct [bk1954, bk1955] "abc").1 (by decide),
   ((yearSearch_correct [bk1954, bk1955] "1954").2 1954 (by decide) bk1954).mpr
     ⟨List.mem_cons_self bk1954 [bk1955], by decide⟩⟩

/-- Claim C7: title search and author search return exactly the books
whose title (respectively author) contains the query as a
case-insensitive substring (the lowercased query is a contiguous
substring of the lowercased field). -/
theorem titleAuthorSearch_correct (books : List Book) (q : String) (b : Book) :
    (b ∈ TitleSearchStrategy.search books q
      ↔ b ∈ books ∧ (jsToLower q).data <:+: (jsToLower b.title).data)
    ∧ (b ∈ AuthorSearchStrategy.search books q
      ↔ b ∈ books ∧ (jsToLower q).data <:+: (jsToLower b.author).data) := by
  constructor
  · simp [TitleSearchStrategy.search, jsIncludes, List.mem_filter, listIncl_iff]
  · simp [AuthorSearchStrategy.search, jsIncludes, List.mem_filter, listIncl_iff]

/-- Claim C7, witness: query `"tolkien"` matches the book authored
`"J.R.R. Tolkien"` under author search. -/
theorem titleAuthorSearch_correct_witness :
    bkA ∈ AuthorSearchStrategy.search [bkA] "tolkien" :=
  ((titleAuthorSearch_correct [bkA] "tolkien" bkA).2).mpr
    ⟨List.mem_cons_self bkA [],
     (listIncl_iff (jsToLower "tolkien").data (jsToLower bkA.author).data).mp (by decide)⟩

/-- Claim C8: each `addBook`/`removeBook` call notifies exactly the
attached observers, once each, in attachment order (`attach` appends, so
the observer list is in attachment order and is the notification
sequence); an observer attached twice is notified twice; after `detach`
the observer receives no further notifications. -/
theorem mutation_notifies_observers (st : LibraryState) (b : Book) (o : Nat) :
    (addBook st b).notified = st.observers
    ∧ (removeBook st b).notified = st.observers
    ∧ (attach st o).observers = st.observers ++ [o]
    ∧ ((addBook (attach (attach st o) o) b).notified).count o
        = st.observers.count o + 2
    ∧ ((addBook (detach st o) b).notified).count o = 0 := by
  refine ⟨rfl, rfl, rfl, ?_, ?_⟩
  · show ((st.observers ++ [o]) ++ [o]).count o = st.observers.count o + 2
    simp [List.count_append]
  · show ((st.observers.filter (fun obs => obs != o)).count o) = 0
    refine List.count_eq_zero.mpr ?_
    intro hmem
    have := (List.mem_filter.mp hmem).2
    simp at this

/-- Claim C9: a single `detach(o)` removes every registration of `o` —
after attaching `o` twice, one detach leaves the observer list as if
neither attachment had happened, and `o` gets zero notifications from the
next mutation. -/
theorem detach_removes_all_registrations (st : LibraryState) (o : Nat) (b : Book) :
    ((detach st o).observers).count o = 0
    ∧ (detach (attach (attach st o) o) o).observers = (detach st o).observers
    ∧ ((addBook (detach (attach (attach st o) o) o) b).notified).count o = 0 := by
  refine ⟨?_, ?_, ?_⟩
  · refine List.count_eq_zero.mpr ?_
    intro hmem
    have := (List.mem_filter.mp hmem).2
    simp at this
  · show ((st.observers ++ [o]) ++ [o]).filter (fun obs => obs != o)
        = st.observers.filter (fun obs => obs != o)
    simp [List.filter_append]
  · show ((((st.observers ++ [o]) ++ [o]).filter (fun obs => obs != o)).count o) = 0
    refine List.count_eq_zero.mpr ?_
    intro hmem
    have := (List.mem_filter.mp hmem).2
    simp at this

/-- Claim C10: when no entry's id matches, `removeBook` leaves the
collection unchanged, yet still overwrites the persisted snapshot (with
the unchanged collection) and still notifies every attached observer. -/
theorem removeBook_no_match_frame (st : LibraryState) (b : Book)
    (h : ∀ x ∈ st.books, x.id ≠ b.id) :
    (removeBook st b).state.books = st.books
    ∧ (removeBook st b).state.store = some (StoredVal.jsonArr st.books)
    ∧ (removeBook st b).notified = st.observers := by
  have hb : st.books.filter (fun x => x.id != b.id) = st.books :=
    List.filter_eq_self.mpr (fun a ha => by simpa using h a ha)
  refine ⟨hb, ?_, rfl⟩
  show some (StoredVal.jsonArr (st.books.filter (fun x => x.id != b.id)))
      = some (StoredVal.jsonArr st.books)
  rw [hb]

/-- Claim C10, witness at a concrete input: removing a book whose id
matches nothing leaves the collection, overwrites the store with it, and
notifies the attached observer. -/
theorem removeBook_no_match_frame_witness :
    (removeBook ⟨[bkA], [2], some StoredVal.corrupt⟩ bkB).state.books = [bkA]
    ∧ (removeBook ⟨[bkA], [2], some StoredVal.corrupt⟩ bkB).state.store
        = some (StoredVal.jsonArr [bkA])
    ∧ (removeBook ⟨[bkA], [2], some StoredVal.corrupt⟩ bkB).notified = [2] :=
  removeBook_no_match_frame ⟨[bkA], [2], some StoredVal.corrupt⟩ bkB (by decide)

end BookLibrary
